import Mathlib

/-!
Verification of the kustomize deployer core
(`pkg/skaffold/deploy/kustomize.go`): the recursive dependency resolver
`dependenciesForKustomization` and the `Deploy` / `Cleanup` pipeline of
`KustomizeDeployer`.

The file system is modelled as a total map from paths to open/decode
outcomes; the unbounded Go recursion is embedded with an explicit fuel
argument; the external boundaries of the pipeline (the `kustomize build`
subprocess, `ManifestList.Append`, `ReplaceImages`, `kubectl.Apply`,
`kubectl.Delete`, `parseManifestsForDeploys`) are fields of an
environment record, and the pipeline records which boundaries it invoked
and with which arguments.
-/

/-- Parsed contents of a `kustomization.yaml` file: the three string-list
fields the Go code decodes (`bases`, `resources`, `patches`). Fields the
decoder leaves absent are empty lists, matching Go nil slices. -/
structure Kustomization where
  bases : List String
  resources : List String
  patches : List String
  deriving Repr, DecidableEq

/-- Outcome of `os.Open` followed by `yaml.Decoder.Decode` on a path:
the open can fail, the decode can fail, or a `Kustomization` results. -/
inductive OpenResult where
  | openErr (e : String)
  | decodeErr (e : String)
  | ok (k : Kustomization)
  deriving Repr, DecidableEq

/-- A file-system state: what opening and decoding each path yields. -/
abbrev FS := String → OpenResult

/-- Model of Go `filepath.Join dir p`. The claims only use `Join` as an
injective-per-level path constructor, so the path-cleaning performed by
Go is irrelevant here and the join is plain concatenation with the
separator. -/
def filepathJoin (dir p : String) : String :=
  dir ++ "/" ++ p

/-- Name of the overlay definition file, as hard-coded in the source. -/
def kustomizationFileName : String :=
  "kustomization.yaml"

/-- Error reported by the fuel embedding when the recursion would exceed
the available fuel; never reached on runs whose nesting depth is within
the fuel bound. -/
def fuelExhausted : String :=
  "recursion fuel exhausted"

/-- The `for _, base := range contents.Bases` loop of
`dependenciesForKustomization`: resolve each base in order via `recurse`,
append its whole returned dependency list, and stop at the first base
whose recursive call reports an error, returning that error. -/
def resolveBases (recurse : String → List String × Option String)
    (dir : String) : List String → List String × Option String
  | [] => ([], none)
  | base :: rest =>
    let r := recurse (filepathJoin dir base)
    match r.2 with
    | some e => (r.1, some e)
    | none =>
      let r2 := resolveBases recurse dir rest
      (r.1 ++ r2.1, r2.2)

/-- Embedding of `dependenciesForKustomization dir`: the dependency list
starts with `Join(dir, "kustomization.yaml")`; an open or decode failure
returns just that list together with the error; otherwise each base is
resolved recursively (stopping at the first error), then the `resources`
and `patches` entries are appended joined with `dir`. The extra fuel
argument bounds the recursion depth of the Go original, which recurses
without a bound. -/
def dependenciesForKustomization (fs : FS) : Nat → String → List String × Option String
  | 0, dir => ([filepathJoin dir kustomizationFileName], some fuelExhausted)
  | fuel + 1, dir =>
    let path := filepathJoin dir kustomizationFileName
    match fs path with
    | OpenResult.openErr e => ([path], some e)
    | OpenResult.decodeErr e => ([path], some e)
    | OpenResult.ok contents =>
      let b := resolveBases (dependenciesForKustomization fs fuel) dir contents.bases
      match b.2 with
      | some e => (path :: b.1, some e)
      | none =>
        (path :: b.1
          ++ contents.resources.map (filepathJoin dir)
          ++ contents.patches.map (filepathJoin dir), none)

/-- Example overlay hierarchy used in concrete witnesses: `root` has one
base `b` and one resource, the base has one resource, everything else is
missing. -/
def exampleFS : FS := fun p =>
  if p = "root/kustomization.yaml" then
    OpenResult.ok ⟨["b"], ["a.yaml"], ["p.yaml"]⟩
  else if p = "root/b/kustomization.yaml" then
    OpenResult.ok ⟨[], ["r.yaml"], []⟩
  else
    OpenResult.openErr ("open " ++ p ++ ": no such file or directory")

/-- Sanity evaluation of the resolver on `exampleFS`: the full closure
of `root` in listing order. -/
theorem exampleFS_resolution :
    dependenciesForKustomization exampleFS 2 "root" =
      (["root/kustomization.yaml", "root/b/kustomization.yaml",
        "root/b/r.yaml", "root/a.yaml", "root/p.yaml"], none) := by
  decide

/-!
State-passing embedding of the resolver. `dependenciesForKustomization`
holds no deployer state and touches the outside world only through
`os.Open`; the `World` record makes that explicit: it carries the
file-system map and a log of the paths opened so far, and the resolver
threads it through every call. -/

/-- World state threaded through the effectful resolver: the file system
and the log of paths opened so far. -/
structure World where
  fs : FS
  reads : List String

/-- Model of `os.Open` plus decode on one path: returns the outcome
recorded in the file system and logs the read; the file system itself is
not changed. -/
def openFile (p : String) (w : World) : OpenResult × World :=
  (w.fs p, ⟨w.fs, w.reads ++ [p]⟩)

/-- State-passing version of the bases loop of
`dependenciesForKustomization`. -/
def resolveBasesM
    (recurse : String → World → (List String × Option String) × World)
    (dir : String) : List String → World → (List String × Option String) × World
  | [], w => (([], none), w)
  | base :: rest, w =>
    let r := recurse (filepathJoin dir base) w
    match r.1.2 with
    | some e => ((r.1.1, some e), r.2)
    | none =>
      let r2 := resolveBasesM recurse dir rest r.2
      ((r.1.1 ++ r2.1.1, r2.1.2), r2.2)

/-- State-passing embedding of `dependenciesForKustomization`: the same
control flow as the pure version, but every file access goes through
`openFile` and threads the `World`. -/
def dependenciesForKustomizationM : Nat → String → World → (List String × Option String) × World
  | 0, dir, w => (([filepathJoin dir kustomizationFileName], some fuelExhausted), w)
  | fuel + 1, dir, w =>
    let path := filepathJoin dir kustomizationFileName
    let o := openFile path w
    match o.1 with
    | OpenResult.openErr e => (([path], some e), o.2)
    | OpenResult.decodeErr e => (([path], some e), o.2)
    | OpenResult.ok contents =>
      let b := resolveBasesM (dependenciesForKustomizationM fuel) dir contents.bases o.2
      match b.1.2 with
      | some e => ((path :: b.1.1, some e), b.2)
      | none =>
        ((path :: b.1.1
          ++ contents.resources.map (filepathJoin dir)
          ++ contents.patches.map (filepathJoin dir), none), b.2)

/-!
Pipeline embedding. The external boundaries of `Deploy` / `Cleanup` are
collected in `DeployEnv`; the pipeline functions return, next to the Go
return values, the ordered list of boundary invocations (`Call`) with
the argument each one received, so that claims about stages never being
reached can be stated. -/

/-- A manifest collection (`kubectl.ManifestList`): an ordered list of
opaque manifest documents. -/
abbrev ManifestList := List String

/-- Result record reported for one applied manifest (`deploy.Artifact`);
opaque here. -/
abbrev DeployResult := String

/-- External boundaries of the pipeline, fixed for one invocation:
the output of the `kustomize build` subprocess (`util.RunCmdOut`),
`ManifestList.Append` splitting that output into documents,
`ManifestList.ReplaceImages`, `kubectl.Apply`, `kubectl.Delete`, and
`parseManifestsForDeploys` (which returns its result pair verbatim). -/
structure DeployEnv where
  renderOut : Except String String
  append : String → ManifestList
  replaceImages : ManifestList → Except String ManifestList
  applyCluster : ManifestList → Except String ManifestList
  deleteCluster : ManifestList → Except String Unit
  parseManifestsForDeploys : ManifestList → List DeployResult × Option String

/-- One boundary invocation made by the pipeline, with the manifest
collection it was handed. -/
inductive Call where
  | render
  | replaceImages (input : ManifestList)
  | applyToCluster (input : ManifestList)
  | deleteFromCluster (input : ManifestList)
  | parseForDeploys (input : ManifestList)
  deriving Repr, DecidableEq

/-- Embedding of `KustomizeDeployer.readManifests`: run the renderer and
wrap its failure as `kustomize build`, otherwise split the output into a
manifest collection. -/
def readManifests (env : DeployEnv) : Except String ManifestList :=
  match env.renderOut with
  | Except.error e => Except.error ("kustomize build: " ++ e)
  | Except.ok out => Except.ok (env.append out)

/-- Outcome of one `Deploy` run: the Go return pair plus the recorded
boundary invocations. -/
structure DeployOutcome where
  results : List DeployResult
  err : Option String
  calls : List Call
  deriving Repr, DecidableEq

/-- Embedding of `KustomizeDeployer.Deploy`: read the manifests (failure
wrapped as `reading manifests`), return `([], none)` when the collection
is empty, replace images (failure wrapped as
`replacing images in manifests`), apply (failure wrapped as `apply`),
and hand the applied collection to `parseManifestsForDeploys`, whose
result pair is returned verbatim. -/
def Deploy (env : DeployEnv) : DeployOutcome :=
  match readManifests env with
  | Except.error e => ⟨[], some ("reading manifests: " ++ e), [Call.render]⟩
  | Except.ok manifests =>
    if manifests.length = 0 then
      ⟨[], none, [Call.render]⟩
    else
      match env.replaceImages manifests with
      | Except.error e =>
        ⟨[], some ("replacing images in manifests: " ++ e),
          [Call.render, Call.replaceImages manifests]⟩
      | Except.ok replaced =>
        match env.applyCluster replaced with
        | Except.error e =>
          ⟨[], some ("apply: " ++ e),
            [Call.render, Call.replaceImages manifests,
              Call.applyToCluster replaced]⟩
        | Except.ok updated =>
          let r := env.parseManifestsForDeploys updated
          ⟨r.1, r.2,
            [Call.render, Call.replaceImages manifests,
              Call.applyToCluster replaced, Call.parseForDeploys updated]⟩

/-- Embedding of `KustomizeDeployer.Cleanup`: read the manifests
(failure wrapped as `reading manifests`), then hand the collection,
untransformed, to `kubectl.Delete` (failure wrapped as `delete`). -/
def Cleanup (env : DeployEnv) : Option String × List Call :=
  match readManifests env with
  | Except.error e => (some ("reading manifests: " ++ e), [Call.render])
  | Except.ok manifests =>
    match env.deleteCluster manifests with
    | Except.error e =>
      (some ("delete: " ++ e), [Call.render, Call.deleteFromCluster manifests])
    | Except.ok _ =>
      (none, [Call.render, Call.deleteFromCluster manifests])

/-!
Helper lemmas about the bases loop. -/

theorem resolveBases_all_none (rec : String → List String × Option String)
    (dir : String) (bs : List String)
    (h : ∀ b ∈ bs, (rec (filepathJoin dir b)).2 = none) :
    resolveBases rec dir bs =
      ((bs.map (fun b => (rec (filepathJoin dir b)).1)).flatten, none) := by
  induction bs with
  | nil => rfl
  | cons b rest ih =>
    have hb : (rec (filepathJoin dir b)).2 = none := h b (List.mem_cons_self b rest)
    have hrest : ∀ x ∈ rest, (rec (filepathJoin dir x)).2 = none :=
      fun x hx => h x (List.mem_cons_of_mem b hx)
    simp [resolveBases, hb, ih hrest]

theorem resolveBases_prefix_fail (rec : String → List String × Option String)
    (dir : String) (pre post : List String) (b : String) (e : String)
    (hpre : ∀ x ∈ pre, (rec (filepathJoin dir x)).2 = none)
    (hfail : (rec (filepathJoin dir b)).2 = some e) :
    resolveBases rec dir (pre ++ b :: post) =
      ((pre.map (fun x => (rec (filepathJoin dir x)).1)).flatten
        ++ (rec (filepathJoin dir b)).1, some e) := by
  induction pre with
  | nil => simp [resolveBases, hfail]
  | cons x rest ih =>
    have hx : (rec (filepathJoin dir x)).2 = none := hpre x (List.mem_cons_self x rest)
    have hrest : ∀ y ∈ rest, (rec (filepathJoin dir y)).2 = none :=
      fun y hy => hpre y (List.mem_cons_of_mem x hy)
    simp [resolveBases, hx, ih hrest, List.append_assoc]

theorem resolveBases_congr (r1 r2 : String → List String × Option String)
    (dir : String) (bs : List String)
    (h : ∀ b ∈ bs, r1 (filepathJoin dir b) = r2 (filepathJoin dir b)) :
    resolveBases r1 dir bs = resolveBases r2 dir bs := by
  induction bs with
  | nil => rfl
  | cons b rest ih =>
    have hb := h b (List.mem_cons_self b rest)
    have hrest : ∀ x ∈ rest, r1 (filepathJoin dir x) = r2 (filepathJoin dir x) :=
      fun x hx => h x (List.mem_cons_of_mem b hx)
    cases h2 : (r2 (filepathJoin dir b)).2 with
    | none => simp [resolveBases, hb, h2, ih hrest]
    | some e => simp [resolveBases, hb, h2]

/-- C1: when the definition file of `dir` opens and decodes to
`contents` and every base resolves without error, `Resolve` returns the
definition-file path, then the full closure of each base in listing
order, then the `resources` entries joined with `dir` in order, then the
`patches` entries joined with `dir` in order, and no error. -/
theorem resolve_success_layout (fs : FS) (dir : String) (k : Kustomization) (fuel : Nat)
    (hk : fs (filepathJoin dir kustomizationFileName) = OpenResult.ok k)
    (hb : ∀ b ∈ k.bases,
      (dependenciesForKustomization fs fuel (filepathJoin dir b)).2 = none) :
    dependenciesForKustomization fs (fuel + 1) dir =
      (filepathJoin dir kustomizationFileName ::
        ((k.bases.map
            (fun b => (dependenciesForKustomization fs fuel (filepathJoin dir b)).1)).flatten
          ++ k.resources.map (filepathJoin dir)
          ++ k.patches.map (filepathJoin dir)), none) := by
  simp [dependenciesForKustomization, hk,
    resolveBases_all_none (dependenciesForKustomization fs fuel) dir k.bases hb]

/-- Closed instance of `resolve_success_layout` on `exampleFS`. -/
theorem resolve_success_layout_witness :
    dependenciesForKustomization exampleFS (1 + 1) "root" =
      (filepathJoin "root" kustomizationFileName ::
        (((["b"] : List String).map
            (fun b => (dependenciesForKustomization exampleFS 1 (filepathJoin "root" b)).1)).flatten
          ++ (["a.yaml"] : List String).map (filepathJoin "root")
          ++ (["p.yaml"] : List String).map (filepathJoin "root")), none) :=
  resolve_success_layout exampleFS "root" ⟨["b"], ["a.yaml"], ["p.yaml"]⟩ 1
    (by decide)
    (by
      intro b hb
      rw [List.mem_singleton] at hb
      subst hb
      decide)

/-- File system on which every path decodes to a failure, used to
witness the decode-error case. -/
def exampleDecodeFailFS : FS := fun _ =>
  OpenResult.decodeErr "yaml: unmarshal errors"

/-- C2: when the definition file of `dir` cannot be opened, or opens but
fails to decode, `Resolve` returns exactly the one-element list holding
the definition-file path, together with that error. -/
theorem resolve_definition_error_best_effort (fs : FS) (dir : String) (fuel : Nat) (e : String)
    (h : fs (filepathJoin dir kustomizationFileName) = OpenResult.openErr e ∨
         fs (filepathJoin dir kustomizationFileName) = OpenResult.decodeErr e) :
    dependenciesForKustomization fs (fuel + 1) dir =
      ([filepathJoin dir kustomizationFileName], some e) := by
  rcases h with h | h <;> simp [dependenciesForKustomization, h]

/-- Closed instances of `resolve_definition_error_best_effort`: an open
failure on `exampleFS` and a decode failure on `exampleDecodeFailFS`. -/
theorem resolve_definition_error_best_effort_witness :
    dependenciesForKustomization exampleFS (0 + 1) "missing" =
      ([filepathJoin "missing" kustomizationFileName],
        some "open missing/kustomization.yaml: no such file or directory") ∧
    dependenciesForKustomization exampleDecodeFailFS (0 + 1) "root" =
      ([filepathJoin "root" kustomizationFileName],
        some "yaml: unmarshal errors") :=
  ⟨resolve_definition_error_best_effort exampleFS "missing" 0
      "open missing/kustomization.yaml: no such file or directory" (Or.inl (by decide)),
    resolve_definition_error_best_effort exampleDecodeFailFS "root" 0
      "yaml: unmarshal errors" (Or.inr (by decide))⟩

/-- File system whose root overlay lists three bases of which the second
is missing, used to witness the failing-base case. -/
def exampleBaseFailFS : FS := fun p =>
  if p = "root/kustomization.yaml" then
    OpenResult.ok ⟨["good", "bad", "after"], ["a.yaml"], ["p.yaml"]⟩
  else if p = "root/good/kustomization.yaml" then
    OpenResult.ok ⟨[], ["g.yaml"], []⟩
  else
    OpenResult.openErr ("open " ++ p ++ ": no such file or directory")

/-- C3: when the bases of `dir` split as `pre ++ b :: post`, every base
in `pre` resolves cleanly and base `b` fails with error `e`, `Resolve`
returns the definition path, the closures of the bases in `pre`, and the
partial list of the failing call, together with `e`: nothing from
`post`, `resources` or `patches` appears. -/
theorem resolve_base_failure_short_circuit (fs : FS) (dir : String) (k : Kustomization)
    (fuel : Nat) (pre post : List String) (b e : String)
    (hk : fs (filepathJoin dir kustomizationFileName) = OpenResult.ok k)
    (hbases : k.bases = pre ++ b :: post)
    (hpre : ∀ x ∈ pre,
      (dependenciesForKustomization fs fuel (filepathJoin dir x)).2 = none)
    (hfail : (dependenciesForKustomization fs fuel (filepathJoin dir b)).2 = some e) :
    dependenciesForKustomization fs (fuel + 1) dir =
      (filepathJoin dir kustomizationFileName ::
        ((pre.map
            (fun x => (dependenciesForKustomization fs fuel (filepathJoin dir x)).1)).flatten
          ++ (dependenciesForKustomization fs fuel (filepathJoin dir b)).1), some e) := by
  simp [dependenciesForKustomization, hk, hbases,
    resolveBases_prefix_fail (dependenciesForKustomization fs fuel) dir pre post b e
      hpre hfail]

/-- Closed instance of `resolve_base_failure_short_circuit` on
`exampleBaseFailFS`. -/
theorem resolve_base_failure_short_circuit_witness :
    dependenciesForKustomization exampleBaseFailFS (1 + 1) "root" =
      (filepathJoin "root" kustomizationFileName ::
        (((["good"] : List String).map
            (fun x => (dependenciesForKustomization exampleBaseFailFS 1 (filepathJoin "root" x)).1)).flatten
          ++ (dependenciesForKustomization exampleBaseFailFS 1 (filepathJoin "root" "bad")).1),
        some "open root/bad/kustomization.yaml: no such file or directory") :=
  resolve_base_failure_short_circuit exampleBaseFailFS "root"
    ⟨["good", "bad", "after"], ["a.yaml"], ["p.yaml"]⟩ 1 ["good"] ["after"] "bad"
    "open root/bad/kustomization.yaml: no such file or directory"
    (by decide) rfl
    (by
      intro x hx
      rw [List.mem_singleton] at hx
      subst hx
      decide)
    (by decide)

/-- C4: for every file system, fuel and directory, error outcome or not,
the returned dependency list is non-empty and starts with
`Join(dir, "kustomization.yaml")`; since the statement quantifies over
every directory it covers every recursive call as well. -/
theorem resolve_first_element_definition (fs : FS) (fuel : Nat) (dir : String) :
    (dependenciesForKustomization fs fuel dir).1 ≠ [] ∧
    (dependenciesForKustomization fs fuel dir).1.head? =
      some (filepathJoin dir kustomizationFileName) := by
  cases fuel with
  | zero => simp [dependenciesForKustomization]
  | succ n =>
    cases h : fs (filepathJoin dir kustomizationFileName) with
    | openErr e => simp [dependenciesForKustomization, h]
    | decodeErr e => simp [dependenciesForKustomization, h]
    | ok k =>
      cases h2 : (resolveBases (dependenciesForKustomization fs n) dir k.bases).2 with
      | none => simp [dependenciesForKustomization, h, h2]
      | some e => simp [dependenciesForKustomization, h, h2]

/-- Acyclicity of the base-reference graph below `dir`, expressed as a
bound: `DepthLE fs dir d` holds when every chain of base references
starting at `dir` has length at most `d`. A cyclic hierarchy admits no
such bound. -/
inductive DepthLE (fs : FS) : String → Nat → Prop where
  | step {dir : String} {d : Nat}
      (h : ∀ k, fs (filepathJoin dir kustomizationFileName) = OpenResult.ok k →
        ∀ base ∈ k.bases, DepthLE fs (filepathJoin dir base) d) :
      DepthLE fs dir (d + 1)

/-- C9: on an acyclic hierarchy (nesting depth bounded by `d`) the
resolver's recursion never consumes more than `d` levels: its result is
the same for every fuel of at least `d`, so the fuel embedding computes
a fixed value — the Go recursion terminates with recursion depth bounded
by the overlay-nesting depth. Nothing is claimed without the bound. -/
theorem resolve_terminates_acyclic (fs : FS) (dir : String) (d : Nat)
    (h : DepthLE fs dir d) (f1 f2 : Nat) (h1 : d ≤ f1) (h2 : d ≤ f2) :
    dependenciesForKustomization fs f1 dir = dependenciesForKustomization fs f2 dir := by
  induction h generalizing f1 f2 with
  | @step dir d hstep ih =>
    match f1, h1, f2, h2 with
    | g1 + 1, h1, g2 + 1, h2 =>
      have hg1 : d ≤ g1 := Nat.le_of_succ_le_succ h1
      have hg2 : d ≤ g2 := Nat.le_of_succ_le_succ h2
      cases hf : fs (filepathJoin dir kustomizationFileName) with
      | openErr e => simp [dependenciesForKustomization, hf]
      | decodeErr e => simp [dependenciesForKustomization, hf]
      | ok k =>
        have hb : resolveBases (dependenciesForKustomization fs g1) dir k.bases =
            resolveBases (dependenciesForKustomization fs g2) dir k.bases :=
          resolveBases_congr _ _ dir k.bases
            (fun b hbm => ih k hf b hbm g1 g2 hg1 hg2)
        simp [dependenciesForKustomization, hf, hb]

/-- Closed instance of `resolve_terminates_acyclic` on `exampleFS`,
whose nesting depth below `root` is at most 2. -/
theorem resolve_terminates_acyclic_witness :
    dependenciesForKustomization exampleFS 2 "root" =
      dependenciesForKustomization exampleFS 5 "root" :=
  resolve_terminates_acyclic exampleFS "root" 2
    (DepthLE.step (by
      intro k hk b hb
      have hkv : k = ⟨["b"], ["a.yaml"], ["p.yaml"]⟩ := by
        have : exampleFS (filepathJoin "root" kustomizationFileName) =
            OpenResult.ok ⟨["b"], ["a.yaml"], ["p.yaml"]⟩ := by decide
        rw [this] at hk
        cases hk
        rfl
      subst hkv
      simp only [List.mem_singleton] at hb
      subst hb
      exact DepthLE.step (by
        intro k2 hk2 b2 hb2
        have hkv2 : k2 = ⟨[], ["r.yaml"], []⟩ := by
          have : exampleFS (filepathJoin (filepathJoin "root" "b") kustomizationFileName) =
              OpenResult.ok ⟨[], ["r.yaml"], []⟩ := by decide
          rw [this] at hk2
          cases hk2
          rfl
        subst hkv2
        simp at hb2)))
    2 5 (Nat.le_refl 2) (by omega)

/-!
Relating the state-passing resolver to the pure one: the value computed
is the pure value over the initial file system, and the file system is
returned unchanged — the resolver only reads. -/

theorem resolveBasesM_spec
    (recM : String → World → (List String × Option String) × World)
    (rec : String → List String × Option String)
    (dir : String) (bs : List String) (fs0 : FS)
    (hrec : ∀ p w, w.fs = fs0 → (recM p w).1 = rec p ∧ (recM p w).2.fs = fs0) :
    ∀ w : World, w.fs = fs0 →
      (resolveBasesM recM dir bs w).1 = resolveBases rec dir bs ∧
      (resolveBasesM recM dir bs w).2.fs = fs0 := by
  induction bs with
  | nil =>
    intro w hw
    exact ⟨rfl, hw⟩
  | cons b rest ih =>
    intro w hw
    obtain ⟨hv, hf⟩ := hrec (filepathJoin dir b) w hw
    cases h2 : (rec (filepathJoin dir b)).2 with
    | some e =>
      constructor
      · simp [resolveBasesM, resolveBases, hv, h2]
      · simp [resolveBasesM, hv, h2, hf]
    | none =>
      obtain ⟨hv2, hf2⟩ := ih (recM (filepathJoin dir b) w).2 hf
      constructor
      · simp [resolveBasesM, resolveBases, hv, h2, hv2]
      · simp [resolveBasesM, hv, h2, hf2]

theorem dependenciesForKustomizationM_spec (fuel : Nat) :
    ∀ (dir : String) (w : World),
      (dependenciesForKustomizationM fuel dir w).1 =
        dependenciesForKustomization w.fs fuel dir ∧
      (dependenciesForKustomizationM fuel dir w).2.fs = w.fs := by
  induction fuel with
  | zero =>
    intro dir w
    exact ⟨rfl, rfl⟩
  | succ n ih =>
    intro dir w
    cases hf : w.fs (filepathJoin dir kustomizationFileName) with
    | openErr e =>
      constructor
      · simp [dependenciesForKustomizationM, dependenciesForKustomization, openFile, hf]
      · simp [dependenciesForKustomizationM, openFile, hf]
    | decodeErr e =>
      constructor
      · simp [dependenciesForKustomizationM, dependenciesForKustomization, openFile, hf]
      · simp [dependenciesForKustomizationM, openFile, hf]
    | ok k =>
      have hrec : ∀ p w2, World.fs w2 = w.fs →
          (dependenciesForKustomizationM n p w2).1 =
            dependenciesForKustomization w.fs n p ∧
          (dependenciesForKustomizationM n p w2).2.fs = w.fs := by
        intro p w2 hw2
        obtain ⟨hv, hfp⟩ := ih p w2
        rw [hw2] at hv hfp
        exact ⟨hv, hfp⟩
      obtain ⟨hbv, hbf⟩ :=
        resolveBasesM_spec (dependenciesForKustomizationM n)
          (dependenciesForKustomization w.fs n) dir k.bases w.fs hrec
          ⟨w.fs, w.reads ++ [filepathJoin dir kustomizationFileName]⟩ rfl
      cases h2 : (resolveBases (dependenciesForKustomization w.fs n) dir k.bases).2 with
      | some e =>
        constructor
        · simp [dependenciesForKustomizationM, dependenciesForKustomization, openFile,
            hf, hbv, h2]
        · simp [dependenciesForKustomizationM, openFile, hf, hbv, h2, hbf]
      | none =>
        constructor
        · simp [dependenciesForKustomizationM, dependenciesForKustomization, openFile,
            hf, hbv, h2]
        · simp [dependenciesForKustomizationM, openFile, hf, hbv, h2, hbf]

/-- C10: resolution is deterministic and read-only. Two runs of the
state-passing resolver from worlds whose file systems agree on every
path return the same dependency list and the same error outcome, and
each run hands back its file system unchanged: the resolver reads files
only and mutates no state. -/
theorem resolve_deterministic_readonly (fuel : Nat) (dir : String) (w1 w2 : World)
    (h : ∀ p, w1.fs p = w2.fs p) :
    (dependenciesForKustomizationM fuel dir w1).1 =
      (dependenciesForKustomizationM fuel dir w2).1 ∧
    (dependenciesForKustomizationM fuel dir w1).2.fs = w1.fs ∧
    (dependenciesForKustomizationM fuel dir w2).2.fs = w2.fs := by
  have hfs : w1.fs = w2.fs := funext h
  obtain ⟨hv1, hf1⟩ := dependenciesForKustomizationM_spec fuel dir w1
  obtain ⟨hv2, hf2⟩ := dependenciesForKustomizationM_spec fuel dir w2
  refine ⟨?_, hf1, hf2⟩
  rw [hv1, hv2, hfs]

/-- Closed instance of `resolve_deterministic_readonly`: two worlds with
the same file system but different read logs. -/
theorem resolve_deterministic_readonly_witness :
    (dependenciesForKustomizationM 2 "root" ⟨exampleFS, []⟩).1 =
      (dependenciesForKustomizationM 2 "root" ⟨exampleFS, ["stale"]⟩).1 ∧
    (dependenciesForKustomizationM 2 "root" ⟨exampleFS, []⟩).2.fs = exampleFS ∧
    (dependenciesForKustomizationM 2 "root" ⟨exampleFS, ["stale"]⟩).2.fs = exampleFS :=
  resolve_deterministic_readonly 2 "root" ⟨exampleFS, []⟩ ⟨exampleFS, ["stale"]⟩
    (fun _ => rfl)

/-!
Concrete pipeline environments used by the witnesses. -/

/-- Environment whose renderer succeeds with an output that splits into
an empty manifest collection. -/
def envEmptyRender : DeployEnv where
  renderOut := Except.ok ""
  append := fun _ => []
  replaceImages := fun m => Except.ok m
  applyCluster := fun m => Except.ok m
  deleteCluster := fun _ => Except.ok ()
  parseManifestsForDeploys := fun m => (m, none)

/-- Environment whose renderer fails. -/
def envRenderFail : DeployEnv where
  renderOut := Except.error "exit status 1"
  append := fun _ => []
  replaceImages := fun m => Except.ok m
  applyCluster := fun m => Except.ok m
  deleteCluster := fun _ => Except.ok ()
  parseManifestsForDeploys := fun m => (m, none)

/-- Environment whose image-replacement stage fails on a non-empty
collection. -/
def envReplaceFail : DeployEnv where
  renderOut := Except.ok "m1"
  append := fun out => [out]
  replaceImages := fun _ => Except.error "image not found"
  applyCluster := fun m => Except.ok m
  deleteCluster := fun _ => Except.ok ()
  parseManifestsForDeploys := fun m => (m, none)

/-- Environment whose apply boundary fails on a non-empty collection. -/
def envApplyFail : DeployEnv where
  renderOut := Except.ok "m1"
  append := fun out => [out]
  replaceImages := fun m => Except.ok m
  applyCluster := fun _ => Except.error "connection refused"
  deleteCluster := fun _ => Except.ok ()
  parseManifestsForDeploys := fun m => (m, none)

/-- Environment whose delete boundary fails. -/
def envDeleteFail : DeployEnv where
  renderOut := Except.ok "m1"
  append := fun out => [out]
  replaceImages := fun m => Except.ok m
  applyCluster := fun m => Except.ok m
  deleteCluster := fun _ => Except.error "not found"
  parseManifestsForDeploys := fun m => (m, none)

/-- Environment whose render and delete boundaries both succeed. -/
def envCleanupOk : DeployEnv where
  renderOut := Except.ok "m1"
  append := fun out => [out]
  replaceImages := fun m => Except.ok m
  applyCluster := fun m => Except.ok m
  deleteCluster := fun _ => Except.ok ()
  parseManifestsForDeploys := fun m => (m, none)

/-- C5: when the render step succeeds and the output splits into an
empty manifest collection, `Deploy` returns an empty result set and no
error, and the only boundary invoked is the renderer: image replacement
and apply are never reached. -/
theorem deploy_empty_render_noop (env : DeployEnv) (out : String)
    (h1 : env.renderOut = Except.ok out) (h2 : env.append out = []) :
    Deploy env = ⟨[], none, [Call.render]⟩ ∧
    (∀ m, Call.replaceImages m ∉ (Deploy env).calls) ∧
    (∀ m, Call.applyToCluster m ∉ (Deploy env).calls) := by
  have hd : Deploy env = ⟨[], none, [Call.render]⟩ := by
    simp [Deploy, readManifests, h1, h2]
  refine ⟨hd, ?_, ?_⟩ <;> intro m <;> rw [hd] <;> simp

/-- Closed instance of `deploy_empty_render_noop` on `envEmptyRender`. -/
theorem deploy_empty_render_noop_witness :
    Deploy envEmptyRender = ⟨[], none, [Call.render]⟩ ∧
    (∀ m, Call.replaceImages m ∉ (Deploy envEmptyRender).calls) ∧
    (∀ m, Call.applyToCluster m ∉ (Deploy envEmptyRender).calls) :=
  deploy_empty_render_noop envEmptyRender "" rfl rfl

/-- C6: whichever of the render, image-replacement or apply stages
fails, `Deploy` returns an empty result set and a non-nil wrapped error,
and the recorded invocations stop at the failing stage: nothing after it
runs and no partial results are returned. -/
theorem deploy_stage_failure_aborts :
    (∀ (env : DeployEnv) (e : String), env.renderOut = Except.error e →
      Deploy env =
        ⟨[], some ("reading manifests: " ++ ("kustomize build: " ++ e)),
          [Call.render]⟩) ∧
    (∀ (env : DeployEnv) (out e : String),
      env.renderOut = Except.ok out → env.append out ≠ [] →
      env.replaceImages (env.append out) = Except.error e →
      Deploy env =
        ⟨[], some ("replacing images in manifests: " ++ e),
          [Call.render, Call.replaceImages (env.append out)]⟩) ∧
    (∀ (env : DeployEnv) (out : String) (replaced : ManifestList) (e : String),
      env.renderOut = Except.ok out → env.append out ≠ [] →
      env.replaceImages (env.append out) = Except.ok replaced →
      env.applyCluster replaced = Except.error e →
      Deploy env =
        ⟨[], some ("apply: " ++ e),
          [Call.render, Call.replaceImages (env.append out),
            Call.applyToCluster replaced]⟩) := by
  refine ⟨?_, ?_, ?_⟩
  · intro env e h
    simp [Deploy, readManifests, h]
  · intro env out e h1 h2 h3
    simp [Deploy, readManifests, h1, List.length_eq_zero, h2, h3]
  · intro env out replaced e h1 h2 h3 h4
    simp [Deploy, readManifests, h1, List.length_eq_zero, h2, h3, h4]

/-- Closed instances of `deploy_stage_failure_aborts` on the three
failing environments. -/
theorem deploy_stage_failure_aborts_witness :
    Deploy envRenderFail =
      ⟨[], some ("reading manifests: " ++ ("kustomize build: " ++ "exit status 1")),
        [Call.render]⟩ ∧
    Deploy envReplaceFail =
      ⟨[], some ("replacing images in manifests: " ++ "image not found"),
        [Call.render, Call.replaceImages (envReplaceFail.append "m1")]⟩ ∧
    Deploy envApplyFail =
      ⟨[], some ("apply: " ++ "connection refused"),
        [Call.render, Call.replaceImages (envApplyFail.append "m1"),
          Call.applyToCluster ["m1"]]⟩ :=
  ⟨deploy_stage_failure_aborts.1 envRenderFail "exit status 1" rfl,
    deploy_stage_failure_aborts.2.1 envReplaceFail "m1" "image not found" rfl
      (by decide) rfl,
    deploy_stage_failure_aborts.2.2 envApplyFail "m1" ["m1"] "connection refused" rfl
      (by decide) rfl rfl⟩

/-- File system on which opening any definition file fails with the bare
error `boom`. -/
def exampleOpenFailFS : FS := fun _ =>
  OpenResult.openErr "boom"

/-- C7 counterexample: on a file system whose definition file fails to
open with error `boom`, the resolver returns exactly `boom`, and no
stage name `s` makes `boom` equal to the wrapped form `s ++ ": " ++
boom`: the resolver's open and decode errors are returned unwrapped,
against the claim that every stage wraps. -/
theorem resolver_error_not_wrapped_cex :
    (dependenciesForKustomization exampleOpenFailFS 1 "d").2 = some "boom" ∧
    ∀ stage : String, "boom" ≠ stage ++ ": " ++ "boom" := by
  constructor
  · decide
  · intro stage h
    have hlen := congrArg String.length h
    rw [String.length_append, String.length_append] at hlen
    have h4 : ("boom" : String).length = 4 := rfl
    have h2 : (": " : String).length = 2 := rfl
    rw [h4, h2] at hlen
    omega

/-- C7 amended: the render, image-replacement, apply and delete stages
each wrap the underlying error with the failing stage's name, but the
dependency resolver is the exception: it returns the open or decode
error unchanged, unwrapped, alongside its partial dependency list. -/
theorem stage_error_wrapping_amended :
    (∀ (env : DeployEnv) (e : String), env.renderOut = Except.error e →
      (Deploy env).err = some ("reading manifests: " ++ ("kustomize build: " ++ e))) ∧
    (∀ (env : DeployEnv) (out e : String),
      env.renderOut = Except.ok out → env.append out ≠ [] →
      env.replaceImages (env.append out) = Except.error e →
      (Deploy env).err = some ("replacing images in manifests: " ++ e)) ∧
    (∀ (env : DeployEnv) (out : String) (replaced : ManifestList) (e : String),
      env.renderOut = Except.ok out → env.append out ≠ [] →
      env.replaceImages (env.append out) = Except.ok replaced →
      env.applyCluster replaced = Except.error e →
      (Deploy env).err = some ("apply: " ++ e)) ∧
    (∀ (env : DeployEnv) (out e : String), env.renderOut = Except.ok out →
      env.deleteCluster (env.append out) = Except.error e →
      (Cleanup env).1 = some ("delete: " ++ e)) ∧
    (∀ (fs : FS) (dir : String) (fuel : Nat) (e : String),
      fs (filepathJoin dir kustomizationFileName) = OpenResult.openErr e ∨
      fs (filepathJoin dir kustomizationFileName) = OpenResult.decodeErr e →
      (dependenciesForKustomization fs (fuel + 1) dir).2 = some e) := by
  refine ⟨?_, ?_, ?_, ?_, ?_⟩
  · intro env e h
    simp [Deploy, readManifests, h]
  · intro env out e h1 h2 h3
    simp [Deploy, readManifests, h1, List.length_eq_zero, h2, h3]
  · intro env out replaced e h1 h2 h3 h4
    simp [Deploy, readManifests, h1, List.length_eq_zero, h2, h3, h4]
  · intro env out e h1 h2
    simp [Cleanup, readManifests, h1, h2]
  · intro fs dir fuel e h
    rcases h with h | h <;> simp [dependenciesForKustomization, h]

/-- Closed instances of `stage_error_wrapping_amended` on the failing
environments and on `exampleOpenFailFS` / `exampleDecodeFailFS`. -/
theorem stage_error_wrapping_amended_witness :
    (Deploy envRenderFail).err =
      some ("reading manifests: " ++ ("kustomize build: " ++ "exit status 1")) ∧
    (Deploy envReplaceFail).err =
      some ("replacing images in manifests: " ++ "image not found") ∧
    (Deploy envApplyFail).err = some ("apply: " ++ "connection refused") ∧
    (Cleanup envDeleteFail).1 = some ("delete: " ++ "not found") ∧
    (dependenciesForKustomization exampleOpenFailFS (0 + 1) "d").2 = some "boom" ∧
    (dependenciesForKustomization exampleDecodeFailFS (0 + 1) "d").2 =
      some "yaml: unmarshal errors" :=
  ⟨stage_error_wrapping_amended.1 envRenderFail "exit status 1" rfl,
    stage_error_wrapping_amended.2.1 envReplaceFail "m1" "image not found" rfl
      (by decide) rfl,
    stage_error_wrapping_amended.2.2.1 envApplyFail "m1" ["m1"] "connection refused" rfl
      (by decide) rfl rfl,
    stage_error_wrapping_amended.2.2.2.1 envDeleteFail "m1" "not found" rfl rfl,
    stage_error_wrapping_amended.2.2.2.2 exampleOpenFailFS "d" 0 "boom"
      (Or.inl (by decide)),
    stage_error_wrapping_amended.2.2.2.2 exampleDecodeFailFS "d" 0
      "yaml: unmarshal errors" (Or.inr (by decide))⟩

/-- C8: `Cleanup` wraps a render failure and never reaches the delete
boundary in that case; when rendering succeeds it hands the rendered
collection, untransformed and with no empty-collection short-circuit, to
the delete boundary (image replacement is never invoked), wrapping a
delete failure and returning nil on success. -/
theorem cleanup_pipeline_behavior (env : DeployEnv) :
    (∀ e, env.renderOut = Except.error e →
      Cleanup env =
        (some ("reading manifests: " ++ ("kustomize build: " ++ e)), [Call.render])) ∧
    (∀ out, env.renderOut = Except.ok out →
      (∀ e, env.deleteCluster (env.append out) = Except.error e →
        Cleanup env =
          (some ("delete: " ++ e),
            [Call.render, Call.deleteFromCluster (env.append out)])) ∧
      (env.deleteCluster (env.append out) = Except.ok () →
        Cleanup env =
          (none, [Call.render, Call.deleteFromCluster (env.append out)]))) := by
  constructor
  · intro e h
    simp [Cleanup, readManifests, h]
  · intro out h1
    constructor
    · intro e h2
      simp [Cleanup, readManifests, h1, h2]
    · intro h2
      simp [Cleanup, readManifests, h1, h2]

/-- Closed instances of `cleanup_pipeline_behavior` on the three
cleanup environments. -/
theorem cleanup_pipeline_behavior_witness :
    Cleanup envRenderFail =
      (some ("reading manifests: " ++ ("kustomize build: " ++ "exit status 1")),
        [Call.render]) ∧
    Cleanup envDeleteFail =
      (some ("delete: " ++ "not found"),
        [Call.render, Call.deleteFromCluster (envDeleteFail.append "m1")]) ∧
    Cleanup envCleanupOk =
      (none, [Call.render, Call.deleteFromCluster (envCleanupOk.append "m1")]) :=
  ⟨(cleanup_pipeline_behavior envRenderFail).1 "exit status 1" rfl,
    ((cleanup_pipeline_behavior envDeleteFail).2 "m1" rfl).1 "not found" rfl,
    ((cleanup_pipeline_behavior envCleanupOk).2 "m1" rfl).2 rfl⟩
